import Mathlib

/-!
Shallow embedding of the relationship-resolution layer of
`mitreattack/stix20/MitreAttackData.py`.

The STIX store (an external collaborator, `stix2.MemoryStore`) is modelled as a
plain list of records; its `query` operation is modelled as list filtering in
store order.  Per the design note of the spec (absence of the optional
`revoked` / `x_mitre_deprecated` flags means `false` at the data-model
boundary), a `Filter('revoked', '=', False)` query step is modelled as keeping
the records whose `revoked` flag, defaulted to `false`, is `false`.
Python dicts are modelled as insertion-ordered association lists.
-/

namespace MitreAttackData

/-- One entry of an object's `external_references` list. -/
structure ExternalRef where
  source_name : String := ""
  external_id : String := ""
deriving DecidableEq

/-- A raw STIX record as held by the store.  A field that is not present in the
underlying JSON record is modelled by the default value (`none` for the two
optional boolean flags, `""` / `[]` otherwise).  Records of every type share
this shape because the Python store is type-erased: relationship records carry
`source_ref` / `target_ref` / `relationship_type`, entity records carry the
remaining fields. -/
structure StixObject where
  id : String := ""
  type : String := ""
  name : String := ""
  aliases : List String := []
  x_mitre_aliases : List String := []
  external_references : List ExternalRef := []
  x_mitre_deprecated : Option Bool := none
  revoked : Option Bool := none
  source_ref : String := ""
  target_ref : String := ""
  relationship_type : String := ""
deriving DecidableEq

/-- A loaded knowledge base: the store's records in store (insertion) order. -/
abbrev StixStore := List StixObject

/-- The fixed entity-type vocabulary `MitreAttackData.stix_types`. -/
def stix_types : List String :=
  ["attack-pattern", "malware", "tool", "intrusion-set", "campaign",
   "course-of-action", "x-mitre-matrix", "x-mitre-tactic",
   "x-mitre-data-source", "x-mitre-data-component"]

/-- Helper for the Python substring test: does the char list start with `pat`? -/
def listStartsWith : List Char → List Char → Bool
  | [], _ => true
  | _ :: _, [] => false
  | p :: ps, c :: cs => p == c && listStartsWith ps cs

/-- Helper for the Python substring test: does `pat` occur somewhere in the
char list? -/
def listHasSub (pat : List Char) : List Char → Bool
  | [] => pat.isEmpty
  | c :: cs => listStartsWith pat (c :: cs) || listHasSub pat cs

/-- The Python string test `pat in s` (substring containment), as used by
`get_related` on `source_ref` / `target_ref`. -/
def strContains (s pat : String) : Bool :=
  listHasSub pat.data s.data

/-- `MitreAttackData.remove_revoked_deprecated`: keep the objects for which
`x.get('x_mitre_deprecated', False) is False and x.get('revoked', False) is
False`, i.e. neither optional flag is present with value `true`. -/
def remove_revoked_deprecated (stix_objects : List StixObject) : List StixObject :=
  stix_objects.filter (fun x =>
    x.x_mitre_deprecated.getD false == false && x.revoked.getD false == false)

/-- The store query of `get_related` step 1:
`Filter('type','=','relationship'), Filter('relationship_type','=',rt),
Filter('revoked','=',False)`. -/
def queryRelationships (src : StixStore) (relationship_type : String) : List StixObject :=
  src.filter (fun o =>
    o.type == "relationship" && o.relationship_type == relationship_type &&
      o.revoked.getD false == false)

/-- The store query of `get_related` step 4:
`Filter('type','=',t), Filter('revoked','=',False)`. -/
def queryTypeNonRevoked (src : StixStore) (t : String) : List StixObject :=
  src.filter (fun o => o.type == t && o.revoked.getD false == false)

/-- Lookup in an insertion-ordered association list (Python `d[k]` /
`k in d`, as `Option`). -/
def dictGet? {α : Type} : List (String × α) → String → Option α
  | [], _ => none
  | kv :: rest, k => if kv.1 = k then some kv.2 else dictGet? rest k

/-- The Python dict update
`d[k].extend(v) if k in d else d[k] = v` on an insertion-ordered dict whose
values are lists: if the key is present its list grows at the end (position
kept), otherwise the key is appended at the end. -/
def dictExtend {α : Type} : List (String × List α) → String → List α → List (String × List α)
  | [], k, v => [(k, v)]
  | kv :: rest, k, v =>
    if kv.1 = k then (kv.1, kv.2 ++ v) :: rest else kv :: dictExtend rest k v

/-- The Python dict construction `\x7b**a, **b\x7d`: `a`'s keys in order with
values overridden by `b` where `b` has the key, then `b`'s remaining keys in
order.  For a shared key, `a`'s value list is replaced, not merged. -/
def dictUnion {α : Type} (a b : List (String × α)) : List (String × α) :=
  (a.map (fun kv =>
    match dictGet? b kv.1 with
    | some v => (kv.1, v)
    | none => kv)) ++
  b.filter (fun kv => (dictGet? a kv.1).isNone)

/-- An intermediate `{'relationship': r, 'id': related_id}` entry of
`get_related`'s `id_to_related` dict. -/
structure IdRel where
  relationship : StixObject
  id : String
deriving DecidableEq

/-- A final `{'object': o, 'relationship': r}` entry of a relationship
mapping. -/
structure RelPair where
  object : StixObject
  relationship : StixObject
deriving DecidableEq

/-- The edge-retention test of `get_related`:
`source_type in relationship.source_ref and target_type in
relationship.target_ref` (Python substring containment). -/
def relMatch (source_type target_type : String) (r : StixObject) : Bool :=
  strContains r.source_ref source_type && strContains r.target_ref target_type

/-- The anchor (dict key) of a retained edge: `source_ref` forward,
`target_ref` reversed. -/
def relAnchor (reverse : Bool) (r : StixObject) : String :=
  if reverse then r.target_ref else r.source_ref

/-- The related identifier of a retained edge: `target_ref` forward,
`source_ref` reversed. -/
def relOther (reverse : Bool) (r : StixObject) : String :=
  if reverse then r.source_ref else r.target_ref

/-- One iteration of `get_related`'s edge loop: retain the edge if its two
refs contain the requested type tags, and record it under its anchor. -/
def buildStep (source_type target_type : String) (reverse : Bool)
    (m : List (String × List IdRel)) (r : StixObject) : List (String × List IdRel) :=
  if relMatch source_type target_type r then
    dictExtend m (relAnchor reverse r) [⟨r, relOther reverse r⟩]
  else m

/-- The `id_to_related` dict of `get_related`, built by folding the edge loop
over the queried relationships in store order. -/
def buildRelated (rels : List StixObject) (source_type target_type : String)
    (reverse : Bool) : List (String × List IdRel) :=
  rels.foldl (buildStep source_type target_type reverse) []

/-- The `id_to_target` dict of `get_related` keyed by `target['id']` (last
insertion wins), composed with lookup: the last record in `targets` whose `id`
equals the given identifier. -/
def lastWithId : List StixObject → String → Option StixObject
  | [], _ => none
  | t :: ts, i =>
    match lastWithId ts i with
    | some u => some u
    | none => if t.id = i then some t else none

/-- Modelled from the spec: the Object Materializer (an external collaborator,
`StixObjectFactory`) converts a raw record into its typed view; on this
embedding's structured records it is the identity and in particular preserves
every field. -/
def StixObjectFactory (o : StixObject) : StixObject := o

/-- The pair-materialization step of `get_related`'s output loop: drop the
entry when its related id is not a key of `id_to_target` (`continue`),
otherwise emit `{'object': factory(target), 'relationship': r}`. -/
def relatedPair (targets : List StixObject) (related : IdRel) : Option RelPair :=
  match lastWithId targets related.id with
  | none => none
  | some t => some ⟨StixObjectFactory t, related.relationship⟩

/-- `MitreAttackData.get_related(source_type, relationship_type, target_type,
reverse)`: query the non-revoked edges of the relationship type, drop revoked
or deprecated edges, group the type-matching edges by anchor, then materialize
each anchor's entries against the non-revoked records of the other type,
silently dropping entries whose related id is not among them. -/
def get_related (src : StixStore) (source_type relationship_type target_type : String)
    (reverse : Bool) : List (String × List RelPair) :=
  let relationships := remove_revoked_deprecated (queryRelationships src relationship_type)
  let id_to_related := buildRelated relationships source_type target_type reverse
  let targets := queryTypeNonRevoked src (if reverse then source_type else target_type)
  id_to_related.map (fun kv => (kv.1, kv.2.filterMap (relatedPair targets)))

/-- `MitreAttackData.merge(map_a, map_b)`: for every key of `map_b` in order,
extend `map_a`'s list for that key (creating the key at the end if absent). -/
def merge (map_a map_b : List (String × List RelPair)) : List (String × List RelPair) :=
  map_b.foldl (fun a kv => dictExtend a kv.1 kv.2) map_a

/-- `MitreAttackData.get_software_used_by_groups()`: direct tool/malware uses
merged, then for each group of the reverse attributed-to mapping, append the
software used by each of its attributed campaigns. -/
def get_software_used_by_groups (src : StixStore) : List (String × List RelPair) :=
  let tools_used_by_group := get_related src "intrusion-set" "uses" "tool" false
  let malware_used_by_group := get_related src "intrusion-set" "uses" "malware" false
  let software_used_by_group := merge tools_used_by_group malware_used_by_group
  let tools_used_by_campaign := get_related src "campaign" "uses" "tool" false
  let malware_used_by_campaign := get_related src "campaign" "uses" "malware" false
  let software_used_by_campaign := merge tools_used_by_campaign malware_used_by_campaign
  let campaigns_attributed_to_group := get_related src "campaign" "attributed-to" "intrusion-set" true
  campaigns_attributed_to_group.foldl (fun acc kv =>
    let software_used_by_campaigns := kv.2.foldl (fun lst campaign =>
      match dictGet? software_used_by_campaign campaign.object.id with
      | some l => lst ++ l
      | none => lst) []
    dictExtend acc kv.1 software_used_by_campaigns) software_used_by_group

/-- `MitreAttackData.get_software_used_by_group_with_id(stix_id)`: compute the
full mapping and return the key's list, or `[]` when the key is absent. -/
def get_software_used_by_group_with_id (src : StixStore) (stix_id : String) : List RelPair :=
  (dictGet? (get_software_used_by_groups src) stix_id).getD []

/-- `MitreAttackData.get_software_using_techniques()`: the dict unpacking
`\x7b**tools_by_technique_id, **malware_by_technique_id\x7d` of the two
reverse one-hop mappings. -/
def get_software_using_techniques (src : StixStore) : List (String × List RelPair) :=
  let tools_by_technique_id := get_related src "tool" "uses" "attack-pattern" true
  let malware_by_technique_id := get_related src "malware" "uses" "attack-pattern" true
  dictUnion tools_by_technique_id malware_by_technique_id

/-- `MitreAttackData.get_mitigations_mitigating_techniques()`. -/
def get_mitigations_mitigating_techniques (src : StixStore) : List (String × List RelPair) :=
  get_related src "course-of-action" "mitigates" "attack-pattern" true

/-- `MitreAttackData.get_mitigations_mitigating_technique_with_id(stix_id)`:
the source function consists of a docstring only — its body is missing, so the
Python function returns `None` for every input, modelled as `none`. -/
def get_mitigations_mitigating_technique_with_id (src : StixStore) (stix_id : String) :
    Option (List RelPair) :=
  none

/-- Observation predicate on a relationship mapping: the key `k` is present
and its value list holds a pair whose related object has identifier `y`. -/
def mappingHasPair (m : List (String × List RelPair)) (k y : String) : Bool :=
  ((dictGet? m k).getD []).any (fun p => p.object.id == y)

/-- The two Python failure modes exercised by the lookup helpers:
`ValueError` from vocabulary validation and `IndexError` from `[0]` on an
empty query result. -/
inductive PyError where
  | valueError
  | indexError
deriving DecidableEq

/-- The store query of `get_object_by_name`:
`Filter('type','=',object_type), Filter('name','=',name)`. -/
def queryByTypeName (src : StixStore) (object_type oname : String) : List StixObject :=
  src.filter (fun o => o.type == object_type && o.name == oname)

/-- `MitreAttackData.get_object_by_name(name, object_type)`: validate the type
tag, then take element `[0]` of the query result (an `IndexError` when the
query is empty). -/
def get_object_by_name (src : StixStore) (oname object_type : String) :
    Except PyError StixObject :=
  if !stix_types.contains object_type then .error .valueError
  else
    match queryByTypeName src object_type oname with
    | [] => .error .indexError
    | x :: _ => .ok (StixObjectFactory x)

/-- The store query of `get_group_by_alias`:
`Filter('type','=','intrusion-set'), Filter('aliases','contains',alias)`. -/
def queryGroupByAlias (src : StixStore) (al : String) : List StixObject :=
  src.filter (fun o => o.type == "intrusion-set" && o.aliases.contains al)

/-- `MitreAttackData.get_group_by_alias(alias)`: element `[0]` of the alias
query (an `IndexError` when the query is empty). -/
def get_group_by_alias (src : StixStore) (al : String) : Except PyError StixObject :=
  match queryGroupByAlias src al with
  | [] => .error .indexError
  | x :: _ => .ok x

/-- The store query of `get_campaign_by_alias`. -/
def queryCampaignByAlias (src : StixStore) (al : String) : List StixObject :=
  src.filter (fun o => o.type == "campaign" && o.aliases.contains al)

/-- `MitreAttackData.get_campaign_by_alias(alias)`. -/
def get_campaign_by_alias (src : StixStore) (al : String) : Except PyError StixObject :=
  match queryCampaignByAlias src al with
  | [] => .error .indexError
  | x :: _ => .ok x

/-- The chained store queries of `get_software_by_alias`: the malware query's
results followed by the tool query's results. -/
def querySoftwareByAlias (src : StixStore) (al : String) : List StixObject :=
  src.filter (fun o => o.type == "malware" && o.x_mitre_aliases.contains al) ++
  src.filter (fun o => o.type == "tool" && o.x_mitre_aliases.contains al)

/-- `MitreAttackData.get_software_by_alias(alias)`: element `[0]` of the
chained queries (an `IndexError` when both are empty). -/
def get_software_by_alias (src : StixStore) (al : String) : Except PyError StixObject :=
  match querySoftwareByAlias src al with
  | [] => .error .indexError
  | x :: _ => .ok x

/-- The store query of `get_object_by_attack_id`:
`Filter('external_references.external_id','=',attack_id),
Filter('type','=',object_type)`; the nested-property filter matches when some
external-reference entry carries the id. -/
def queryByAttackId (src : StixStore) (attack_id object_type : String) : List StixObject :=
  src.filter (fun o =>
    o.external_references.any (fun ref => ref.external_id == attack_id) &&
      o.type == object_type)

/-- `MitreAttackData.get_object_by_attack_id(attack_id, object_type)`:
validate the type tag, then take element `[0]` of the query result. -/
def get_object_by_attack_id (src : StixStore) (attack_id object_type : String) :
    Except PyError StixObject :=
  if !stix_types.contains object_type then .error .valueError
  else
    match queryByAttackId src attack_id object_type with
    | [] => .error .indexError
    | x :: _ => .ok (StixObjectFactory x)

/-- The `src.relationships(stix_id, 'revoked-by', source_only=True)` step of
`get_revoked_by`: the store's relationship records of type `revoked-by` whose
`source_ref` is the given id. -/
def relationsRevokedBy (src : StixStore) (stix_id : String) : List StixObject :=
  src.filter (fun o =>
    o.type == "relationship" && o.relationship_type == "revoked-by" &&
      o.source_ref == stix_id)

/-- The second store query of `get_revoked_by`:
`Filter('id','in',[r.target_ref for r in relations]),
Filter('revoked','=',False)`. -/
def revokedByQuery (src : StixStore) (stix_id : String) : List StixObject :=
  src.filter (fun o =>
    ((relationsRevokedBy src stix_id).map (fun r => r.target_ref)).contains o.id &&
      o.revoked.getD false == false)

/-- `MitreAttackData.get_revoked_by(stix_id)`: the query result is a list and
is never `None`, so the `is not None` guard always takes `revoked_by[0]` — an
`IndexError` when the query is empty, its first element otherwise. -/
def get_revoked_by (src : StixStore) (stix_id : String) : Except PyError StixObject :=
  match revokedByQuery src stix_id with
  | [] => .error .indexError
  | x :: _ => .ok x

/-! ### Concrete store snapshots used to instantiate the results -/

/-- A group record (claim C1 snapshot). -/
def objA1 : StixObject := { id := "intrusion-set--a1", type := "intrusion-set" }

/-- A deprecated but not revoked tool record (claim C1 snapshot). -/
def objB1 : StixObject :=
  { id := "tool--b1", type := "tool", x_mitre_deprecated := some true,
    revoked := some false }

/-- A live `uses` edge from the group to the deprecated tool (claim C1). -/
def edge1 : StixObject :=
  { id := "relationship--r1", type := "relationship", relationship_type := "uses",
    source_ref := "intrusion-set--a1", target_ref := "tool--b1" }

/-- Claim C1 snapshot: a live edge pointing at a deprecated tool. -/
def storeC1 : StixStore := [objA1, objB1, edge1]

/-- A live `uses` edge whose target `tool--b2` is absent from the store
(claim C2 snapshot). -/
def edge2 : StixObject :=
  { id := "relationship--r2", type := "relationship", relationship_type := "uses",
    source_ref := "intrusion-set--a2", target_ref := "tool--b2" }

/-- Claim C2 snapshot: every candidate pair of the edge's anchor dangles. -/
def storeC2 : StixStore := [edge2]

/-- A mitigation record (claim C3 snapshot). -/
def objM3 : StixObject := { id := "course-of-action--m3", type := "course-of-action" }

/-- A technique record (claim C3 snapshot). -/
def objT3 : StixObject := { id := "attack-pattern--t3", type := "attack-pattern" }

/-- A live `mitigates` edge (claim C3 snapshot). -/
def edge3 : StixObject :=
  { id := "relationship--r3", type := "relationship", relationship_type := "mitigates",
    source_ref := "course-of-action--m3", target_ref := "attack-pattern--t3" }

/-- Claim C3 snapshot: one mitigation mitigating one technique. -/
def storeC3 : StixStore := [objM3, objT3, edge3]

/-- A tool record (claim C4 snapshot). -/
def objT4 : StixObject := { id := "tool--t4", type := "tool" }

/-- A malware record (claim C4 snapshot). -/
def objM4 : StixObject := { id := "malware--m4", type := "malware" }

/-- A technique record (claim C4 snapshot). -/
def objX4 : StixObject := { id := "attack-pattern--x4", type := "attack-pattern" }

/-- The tool's `uses` edge to the technique (claim C4 snapshot). -/
def edgeT4 : StixObject :=
  { id := "relationship--rt4", type := "relationship", relationship_type := "uses",
    source_ref := "tool--t4", target_ref := "attack-pattern--x4" }

/-- The malware's `uses` edge to the same technique (claim C4 snapshot). -/
def edgeM4 : StixObject :=
  { id := "relationship--rm4", type := "relationship", relationship_type := "uses",
    source_ref := "malware--m4", target_ref := "attack-pattern--x4" }

/-- Claim C4 snapshot: a tool and a malware both using one technique. -/
def storeC4 : StixStore := [objT4, objM4, objX4, edgeT4, edgeM4]

/-- A tool record (claim C5 snapshot). -/
def objY5 : StixObject := { id := "tool--y5", type := "tool" }

/-- A live `uses` edge whose source `intrusion-set--x5` is absent from the
store (claim C5 snapshot). -/
def edge5 : StixObject :=
  { id := "relationship--r5", type := "relationship", relationship_type := "uses",
    source_ref := "intrusion-set--x5", target_ref := "tool--y5" }

/-- Claim C5 counterexample snapshot: the edge's source entity is absent. -/
def storeC5 : StixStore := [objY5, edge5]

/-- A group record (claim C5 witness snapshot). -/
def objX5w : StixObject := { id := "intrusion-set--x5", type := "intrusion-set" }

/-- Claim C5 witness snapshot: both endpoints live. -/
def storeC5w : StixStore := [objX5w, objY5, edge5]

/-- The group G (claim C6 snapshot). -/
def objG6 : StixObject := { id := "intrusion-set--g6", type := "intrusion-set" }

/-- The tool W used by G (claim C6 snapshot). -/
def objW6 : StixObject := { id := "tool--w6", type := "tool" }

/-- The campaign C attributed to G (claim C6 snapshot). -/
def objC6 : StixObject := { id := "campaign--c6", type := "campaign" }

/-- The malware M used by C (claim C6 snapshot). -/
def objM6 : StixObject := { id := "malware--m6", type := "malware" }

/-- Edge: G uses W (claim C6 snapshot). -/
def edge61 : StixObject :=
  { id := "relationship--r61", type := "relationship", relationship_type := "uses",
    source_ref := "intrusion-set--g6", target_ref := "tool--w6" }

/-- Edge: C attributed-to G (claim C6 snapshot). -/
def edge62 : StixObject :=
  { id := "relationship--r62", type := "relationship",
    relationship_type := "attributed-to",
    source_ref := "campaign--c6", target_ref := "intrusion-set--g6" }

/-- Edge: C uses M (claim C6 snapshot). -/
def edge63 : StixObject :=
  { id := "relationship--r63", type := "relationship", relationship_type := "uses",
    source_ref := "campaign--c6", target_ref := "malware--m6" }

/-- Claim C6 snapshot: one group using one tool, one campaign attributed to
the group using one malware, all live. -/
def storeC6 : StixStore := [objG6, objW6, objC6, objM6, edge61, edge62, edge63]

/-- A deprecated record (claim C7 witness data). -/
def objD7 : StixObject :=
  { id := "attack-pattern--d7", type := "attack-pattern",
    x_mitre_deprecated := some true }

/-- A plain record (claim C7 witness data). -/
def objK7 : StixObject := { id := "attack-pattern--k7", type := "attack-pattern" }

/-- A named, aliased group record (claim C8 snapshot). -/
def objG8 : StixObject :=
  { id := "intrusion-set--g8", type := "intrusion-set", name := "PhantomBear",
    aliases := ["PB8"] }

/-- Claim C8 snapshot: one group with one name and one alias. -/
def storeC8 : StixStore := [objG8]

/-- A group record (claim C9 snapshot). -/
def objA9 : StixObject := { id := "intrusion-set--a9", type := "intrusion-set" }

/-- A tool record (claim C9 snapshot). -/
def objB9 : StixObject := { id := "tool--b9", type := "tool" }

/-- A live `uses` edge (claim C9 snapshot). -/
def edge9 : StixObject :=
  { id := "relationship--r9", type := "relationship", relationship_type := "uses",
    source_ref := "intrusion-set--a9", target_ref := "tool--b9" }

/-- Claim C9 snapshot: a store with valid content, queried with type tags
outside the recognized vocabulary. -/
def storeC9 : StixStore := [objA9, objB9, edge9]

/-- A revoked technique record (claim C10 snapshot). -/
def objOld10 : StixObject :=
  { id := "attack-pattern--old10", type := "attack-pattern", revoked := some true }

/-- The record revoking it (claim C10 snapshot). -/
def objNew10 : StixObject := { id := "attack-pattern--new10", type := "attack-pattern" }

/-- The `revoked-by` edge (claim C10 snapshot). -/
def edge10 : StixObject :=
  { id := "relationship--r10", type := "relationship",
    relationship_type := "revoked-by",
    source_ref := "attack-pattern--old10", target_ref := "attack-pattern--new10" }

/-- Claim C10 snapshot: one revoked object with one revoking object. -/
def storeC10 : StixStore := [objOld10, objNew10, edge10]

/-! ### Dictionary and lookup lemmas -/

theorem dictGet?_dictExtend_self {α : Type} (m : List (String × List α)) (k : String)
    (v : List α) :
    dictGet? (dictExtend m k v) k = some ((dictGet? m k).getD [] ++ v) := by
  induction m with
  | nil => simp [dictExtend, dictGet?]
  | cons kv rest ih =>
    by_cases h : kv.1 = k
    · simp [dictExtend, dictGet?, h]
    · simp [dictExtend, dictGet?, h, ih]

theorem dictGet?_dictExtend_ne {α : Type} (m : List (String × List α)) (k k' : String)
    (v : List α) (h : k' ≠ k) :
    dictGet? (dictExtend m k v) k' = dictGet? m k' := by
  induction m with
  | nil =>
    have h2 : ¬ (k = k') := fun hh => h hh.symm
    simp [dictExtend, dictGet?, h2]
  | cons kv rest ih =>
    have h3 : ¬ (k = k') := fun hh => h hh.symm
    by_cases h1 : kv.1 = k
    · have h2 : ¬ (kv.1 = k') := fun hh => h (hh.symm.trans h1)
      simp [dictExtend, dictGet?, h1, h2, h3]
    · by_cases h2 : kv.1 = k'
      · simp [dictExtend, dictGet?, h1, h2, h]
      · simp [dictExtend, dictGet?, h1, h2, ih]

/-- Membership of an entry in a key's value list of an association dict. -/
def memEntry {α : Type} (m : List (String × List α)) (k : String) (q : α) : Prop :=
  ∃ l, dictGet? m k = some l ∧ q ∈ l

theorem memEntry_dictExtend {α : Type} (m : List (String × List α)) (k k' : String)
    (v : List α) (q : α) :
    memEntry (dictExtend m k v) k' q ↔ memEntry m k' q ∨ (k' = k ∧ q ∈ v) := by
  by_cases h : k' = k
  · subst h
    unfold memEntry
    rw [dictGet?_dictExtend_self]
    cases hm : dictGet? m k' with
    | none => simp [hm]
    | some l => simp [hm]
  · unfold memEntry
    rw [dictGet?_dictExtend_ne m k k' v h]
    simp [h]

theorem isSome_dictExtend {α : Type} (m : List (String × List α)) (k k' : String)
    (v : List α) :
    (dictGet? (dictExtend m k v) k').isSome = true ↔
      (dictGet? m k').isSome = true ∨ k' = k := by
  by_cases h : k' = k
  · subst h; rw [dictGet?_dictExtend_self]; simp
  · rw [dictGet?_dictExtend_ne m k k' v h]; simp [h]

/-! ### Characterization of the edge-grouping loop of `get_related` -/

theorem memEntry_buildStep (st tt : String) (rev : Bool) (m : List (String × List IdRel))
    (r : StixObject) (k : String) (q : IdRel) :
    memEntry (buildStep st tt rev m r) k q ↔
      memEntry m k q ∨
        (relMatch st tt r = true ∧ relAnchor rev r = k ∧ q = ⟨r, relOther rev r⟩) := by
  unfold buildStep
  by_cases h : relMatch st tt r = true
  · rw [if_pos h, memEntry_dictExtend]
    constructor
    · rintro (hm | ⟨hk, hq⟩)
      · exact Or.inl hm
      · exact Or.inr ⟨h, hk.symm, List.mem_singleton.mp hq⟩
    · rintro (hm | ⟨-, hk, hq⟩)
      · exact Or.inl hm
      · exact Or.inr ⟨hk.symm, List.mem_singleton.mpr hq⟩
  · rw [if_neg h]
    simp [h]

theorem isSome_buildStep (st tt : String) (rev : Bool) (m : List (String × List IdRel))
    (r : StixObject) (k : String) :
    (dictGet? (buildStep st tt rev m r) k).isSome = true ↔
      (dictGet? m k).isSome = true ∨
        (relMatch st tt r = true ∧ relAnchor rev r = k) := by
  unfold buildStep
  by_cases h : relMatch st tt r = true
  · rw [if_pos h, isSome_dictExtend]
    constructor
    · rintro (hm | hk)
      · exact Or.inl hm
      · exact Or.inr ⟨h, hk.symm⟩
    · rintro (hm | ⟨-, hk⟩)
      · exact Or.inl hm
      · exact Or.inr hk.symm
  · rw [if_neg h]
    simp [h]

theorem memEntry_foldl_buildStep (st tt : String) (rev : Bool) (rels : List StixObject)
    (k : String) (q : IdRel) :
    ∀ m : List (String × List IdRel),
      memEntry (rels.foldl (buildStep st tt rev) m) k q ↔
        memEntry m k q ∨
          ∃ r ∈ rels, relMatch st tt r = true ∧ relAnchor rev r = k ∧
            q = ⟨r, relOther rev r⟩ := by
  induction rels with
  | nil => intro m; simp
  | cons r rs ih =>
    intro m
    rw [List.foldl_cons, ih, memEntry_buildStep]
    constructor
    · rintro ((hm | hr) | ⟨u, hu, hrest⟩)
      · exact Or.inl hm
      · exact Or.inr ⟨r, List.mem_cons_self r rs, hr⟩
      · exact Or.inr ⟨u, List.mem_cons_of_mem r hu, hrest⟩
    · rintro (hm | ⟨u, hu, h1, h2, h3⟩)
      · exact Or.inl (Or.inl hm)
      · rcases List.mem_cons.mp hu with rfl | hu
        · exact Or.inl (Or.inr ⟨h1, h2, h3⟩)
        · exact Or.inr ⟨u, hu, h1, h2, h3⟩

theorem isSome_foldl_buildStep (st tt : String) (rev : Bool) (rels : List StixObject)
    (k : String) :
    ∀ m : List (String × List IdRel),
      (dictGet? (rels.foldl (buildStep st tt rev) m) k).isSome = true ↔
        (dictGet? m k).isSome = true ∨
          ∃ r ∈ rels, relMatch st tt r = true ∧ relAnchor rev r = k := by
  induction rels with
  | nil => intro m; simp
  | cons r rs ih =>
    intro m
    rw [List.foldl_cons, ih, isSome_buildStep]
    constructor
    · rintro ((hm | hr) | ⟨u, hu, hrest⟩)
      · exact Or.inl hm
      · exact Or.inr ⟨r, List.mem_cons_self r rs, hr⟩
      · exact Or.inr ⟨u, List.mem_cons_of_mem r hu, hrest⟩
    · rintro (hm | ⟨u, hu, h1, h2⟩)
      · exact Or.inl (Or.inl hm)
      · rcases List.mem_cons.mp hu with rfl | hu
        · exact Or.inl (Or.inr ⟨h1, h2⟩)
        · exact Or.inr ⟨u, hu, h1, h2⟩

theorem memEntry_buildRelated (rels : List StixObject) (st tt : String) (rev : Bool)
    (k : String) (q : IdRel) :
    memEntry (buildRelated rels st tt rev) k q ↔
      ∃ r ∈ rels, relMatch st tt r = true ∧ relAnchor rev r = k ∧
        q = ⟨r, relOther rev r⟩ := by
  rw [buildRelated, memEntry_foldl_buildStep]
  simp [memEntry, dictGet?]

theorem isSome_buildRelated (rels : List StixObject) (st tt : String) (rev : Bool)
    (k : String) :
    (dictGet? (buildRelated rels st tt rev) k).isSome = true ↔
      ∃ r ∈ rels, relMatch st tt r = true ∧ relAnchor rev r = k := by
  rw [buildRelated, isSome_foldl_buildStep]
  simp [dictGet?]

/-! ### Characterization of the target-index lookup -/

theorem lastWithId_eq_some (ts : List StixObject) (i : String) (t : StixObject)
    (h : lastWithId ts i = some t) : t ∈ ts ∧ t.id = i := by
  induction ts with
  | nil => simp [lastWithId] at h
  | cons u us ih =>
    rw [lastWithId] at h
    cases hrec : lastWithId us i with
    | some w =>
      rw [hrec] at h
      obtain rfl := Option.some.inj h
      have hw := ih hrec
      exact ⟨List.mem_cons_of_mem u hw.1, hw.2⟩
    | none =>
      rw [hrec] at h
      by_cases hid : u.id = i
      · rw [if_pos hid] at h
        obtain rfl := Option.some.inj h
        exact ⟨List.mem_cons_self u us, hid⟩
      · rw [if_neg hid] at h
        cases h

theorem isSome_lastWithId (ts : List StixObject) (i : String) :
    (lastWithId ts i).isSome = true ↔ ∃ t ∈ ts, t.id = i := by
  induction ts with
  | nil => simp [lastWithId]
  | cons u us ih =>
    rw [lastWithId]
    cases hrec : lastWithId us i with
    | some w =>
      have hw := lastWithId_eq_some us i w hrec
      simp only [Option.isSome_some, true_iff]
      exact ⟨w, List.mem_cons_of_mem u hw.1, hw.2⟩
    | none =>
      have hus : ¬ ∃ t ∈ us, t.id = i := by
        rw [← ih, hrec]
        simp
      by_cases hid : u.id = i
      · simp only [if_pos hid, Option.isSome_some, true_iff]
        exact ⟨u, List.mem_cons_self u us, hid⟩
      · simp only [if_neg hid, Option.isSome_none]
        constructor
        · intro hf; cases hf
        · rintro ⟨t, ht, hti⟩
          rcases List.mem_cons.mp ht with rfl | ht
          · exact absurd hti hid
          · exact absurd ⟨t, ht, hti⟩ hus

/-! ### Characterization of `get_related` -/

theorem dictGet?_map {α β : Type} (g : α → β) (m : List (String × α)) (k : String) :
    dictGet? (m.map (fun kv => (kv.1, g kv.2))) k = (dictGet? m k).map g := by
  induction m with
  | nil => rfl
  | cons kv rest ih =>
    by_cases h : kv.1 = k <;> simp [dictGet?, h, ih]

theorem dictGet?_get_related (src : StixStore) (st rt tt : String) (rev : Bool)
    (k : String) :
    dictGet? (get_related src st rt tt rev) k =
      (dictGet? (buildRelated (remove_revoked_deprecated (queryRelationships src rt))
          st tt rev) k).map
        (fun l => l.filterMap
          (relatedPair (queryTypeNonRevoked src (if rev then st else tt)))) := by
  simp only [get_related]
  exact dictGet?_map _ _ k

theorem relatedPair_eq_some (targets : List StixObject) (q : IdRel) (p : RelPair) :
    relatedPair targets q = some p ↔
      ∃ t, lastWithId targets q.id = some t ∧ p = ⟨t, q.relationship⟩ := by
  unfold relatedPair StixObjectFactory
  cases h : lastWithId targets q.id with
  | none => simp
  | some t => simp [eq_comm]

theorem memEntry_get_related (src : StixStore) (st rt tt : String) (rev : Bool)
    (k : String) (p : RelPair) :
    memEntry (get_related src st rt tt rev) k p ↔
      ∃ q, memEntry (buildRelated (remove_revoked_deprecated (queryRelationships src rt))
          st tt rev) k q ∧
        relatedPair (queryTypeNonRevoked src (if rev then st else tt)) q = some p := by
  unfold memEntry
  rw [dictGet?_get_related]
  cases hb : dictGet? (buildRelated (remove_revoked_deprecated (queryRelationships src rt))
      st tt rev) k with
  | none => simp
  | some l₀ => simp [List.mem_filterMap]

theorem isSome_get_related (src : StixStore) (st rt tt : String) (rev : Bool)
    (k : String) :
    (dictGet? (get_related src st rt tt rev) k).isSome = true ↔
      ∃ r ∈ remove_revoked_deprecated (queryRelationships src rt),
        relMatch st tt r = true ∧ relAnchor rev r = k := by
  rw [dictGet?_get_related, Option.isSome_map']
  exact isSome_buildRelated _ st tt rev k

theorem mappingHasPair_iff (m : List (String × List RelPair)) (k y : String) :
    mappingHasPair m k y = true ↔ ∃ p, memEntry m k p ∧ p.object.id = y := by
  unfold mappingHasPair memEntry
  cases h : dictGet? m k with
  | none => simp
  | some l => simp [List.any_eq_true]

theorem mappingHasPair_get_related (src : StixStore) (st rt tt : String) (rev : Bool)
    (k y : String) :
    mappingHasPair (get_related src st rt tt rev) k y = true ↔
      (∃ r ∈ remove_revoked_deprecated (queryRelationships src rt),
          relMatch st tt r = true ∧ relAnchor rev r = k ∧ relOther rev r = y) ∧
        ∃ t ∈ queryTypeNonRevoked src (if rev then st else tt), t.id = y := by
  rw [mappingHasPair_iff]
  constructor
  · rintro ⟨p, hp, hy⟩
    rcases (memEntry_get_related src st rt tt rev k p).mp hp with ⟨q, hq, hpair⟩
    rcases (relatedPair_eq_some _ q p).mp hpair with ⟨t, hlast, rfl⟩
    have ht := lastWithId_eq_some _ _ _ hlast
    have hqid : q.id = y := by
      have : t.id = y := hy
      exact ht.2 ▸ this
    rcases (memEntry_buildRelated _ st tt rev k q).mp hq with ⟨r, hr, hm, ha, hqe⟩
    refine ⟨⟨r, hr, hm, ha, ?_⟩, t, ht.1, by rw [ht.2, hqid]⟩
    have : q.id = relOther rev r := by rw [hqe]
    rw [← this, hqid]
  · rintro ⟨⟨r, hr, hm, ha, ho⟩, t0, ht0, ht0i⟩
    have hsome : (lastWithId (queryTypeNonRevoked src (if rev then st else tt)) y).isSome
        = true := (isSome_lastWithId _ y).mpr ⟨t0, ht0, ht0i⟩
    rcases Option.isSome_iff_exists.mp hsome with ⟨t, hlast⟩
    have ht := lastWithId_eq_some _ _ _ hlast
    refine ⟨⟨t, r⟩, ?_, ht.2⟩
    apply (memEntry_get_related src st rt tt rev k _).mpr
    refine ⟨⟨r, relOther rev r⟩, (memEntry_buildRelated _ st tt rev k _).mpr
      ⟨r, hr, hm, ha, rfl⟩, ?_⟩
    apply (relatedPair_eq_some _ _ _).mpr
    exact ⟨t, by simpa [ho] using hlast, rfl⟩

/-- Helper: the absent-defaults-false flag reading agrees with "not present
with value true". -/
theorem getD_false_eq_false_iff (o : Option Bool) : o.getD false = false ↔ o ≠ some true := by
  cases o with
  | none => simp
  | some b => cases b <;> simp

/-- Helper: a fold of the edge loop over edges none of which pass the
type-containment test leaves the accumulator unchanged. -/
theorem foldl_buildStep_no_match (st tt : String) (rev : Bool) :
    ∀ (rels : List StixObject) (m : List (String × List IdRel)),
      (∀ r ∈ rels, relMatch st tt r = false) →
        rels.foldl (buildStep st tt rev) m = m := by
  intro rels
  induction rels with
  | nil => intro m _; rfl
  | cons r rs ih =>
    intro m hall
    rw [List.foldl_cons]
    have hr : relMatch st tt r = false := hall r (List.mem_cons_self r rs)
    have hstep : buildStep st tt rev m r = m := by simp [buildStep, hr]
    rw [hstep]
    exact ih m (fun u hu => hall u (List.mem_cons_of_mem r hu))

/-! ### Claim theorems -/

/-- C1, counterexample: the claim says a pair whose related entity is
deprecated is dropped, but `get_related` indexes targets with a
revoked-only filter — on `storeC1` the deprecated (not revoked) tool
`objB1` is retained in the mapping. -/
theorem C1_counterexample :
    get_related storeC1 "intrusion-set" "uses" "tool" false =
      [("intrusion-set--a1", [⟨objB1, edge1⟩])] ∧
    objB1.x_mitre_deprecated = some true ∧ objB1.revoked = some false := by decide

/-- C1 (amended): every `\x7bobject, relationship\x7d` pair appearing in any
value list of `get_related(source_type, relationship_type, target_type,
reverse)` refers to a related entity that is present in the store, of the
other-side type, and not revoked; edges whose related identifier resolves to
a revoked or absent entity are silently dropped.  (Deprecation alone does not
cause dropping.) -/
theorem C1_related_present_nonrevoked (src : StixStore) (st rt tt : String) (rev : Bool)
    (k : String) (l : List RelPair) (p : RelPair)
    (hl : dictGet? (get_related src st rt tt rev) k = some l) (hp : p ∈ l) :
    p.object ∈ src ∧ p.object.type = (if rev then st else tt) ∧
      p.object.revoked.getD false = false := by
  have hmem : memEntry (get_related src st rt tt rev) k p := ⟨l, hl, hp⟩
  rcases (memEntry_get_related src st rt tt rev k p).mp hmem with ⟨q, hq, hpair⟩
  rcases (relatedPair_eq_some _ q p).mp hpair with ⟨t, hlast, rfl⟩
  have ht := lastWithId_eq_some _ _ _ hlast
  have htm := ht.1
  rw [queryTypeNonRevoked, List.mem_filter] at htm
  rcases htm with ⟨hsrc, hpred⟩
  rw [Bool.and_eq_true, beq_iff_eq, beq_iff_eq] at hpred
  exact ⟨hsrc, hpred.1, hpred.2⟩

/-- C1, witness: the amended theorem applied to `storeC1`. -/
theorem C1_witness :
    objB1 ∈ storeC1 ∧ objB1.type = "tool" ∧ objB1.revoked.getD false = false :=
  C1_related_present_nonrevoked storeC1 "intrusion-set" "uses" "tool" false
    "intrusion-set--a1" [⟨objB1, edge1⟩] ⟨objB1, edge1⟩ (by decide) (by decide)

/-- C2, counterexample: the claim says an anchor all of whose candidate pairs
are dropped is absent from the mapping, but on `storeC2` (one live edge whose
target is absent from the store) the anchor is present mapped to the empty
list. -/
theorem C2_counterexample :
    get_related storeC2 "intrusion-set" "uses" "tool" false =
      [("intrusion-set--a2", [])] ∧
    dictGet? (get_related storeC2 "intrusion-set" "uses" "tool" false)
      "intrusion-set--a2" = some [] := by decide

/-- C2 (amended): a key is present in the mapping returned by
`get_related(source_type, relationship_type, target_type, reverse)` exactly
when it is the anchor of at least one retained (type-matching, non-revoked,
non-deprecated) edge of the relationship type; a key whose every candidate
pair was dropped stays present, mapped to an empty list. -/
theorem C2_keys_are_edge_anchors (src : StixStore) (st rt tt : String) (rev : Bool)
    (k : String) :
    (dictGet? (get_related src st rt tt rev) k).isSome = true ↔
      ∃ r ∈ remove_revoked_deprecated (queryRelationships src rt),
        relMatch st tt r = true ∧ relAnchor rev r = k :=
  isSome_get_related src st rt tt rev k

/-- C3: on `storeC3` the full technique-to-mitigations mapping carries the
technique's key with a non-empty list, but the single-anchor accessor
`get_mitigations_mitigating_technique_with_id` — whose source body is missing
— returns `None` instead of that list. -/
theorem C3_missing_body :
    dictGet? (get_mitigations_mitigating_techniques storeC3) "attack-pattern--t3" =
      some [⟨objM3, edge3⟩] ∧
    get_mitigations_mitigating_technique_with_id storeC3 "attack-pattern--t3" = none :=
  ⟨by decide, rfl⟩

/-- C4: on `storeC4` a tool and a malware each use technique `x4`; the two
reverse one-hop mappings each carry one pair for the technique's key, but
`get_software_using_techniques` combines them with dict unpacking, so the
malware mapping's list replaces the tool mapping's list and the tool's pair
is lost, contradicting the merge-preserves-every-pair claim. -/
theorem C4_dict_unpack_loses_entries :
    dictGet? (get_related storeC4 "tool" "uses" "attack-pattern" true)
      "attack-pattern--x4" = some [⟨objT4, edgeT4⟩] ∧
    dictGet? (get_related storeC4 "malware" "uses" "attack-pattern" true)
      "attack-pattern--x4" = some [⟨objM4, edgeM4⟩] ∧
    get_software_using_techniques storeC4 =
      [("attack-pattern--x4", [⟨objM4, edgeM4⟩])] := by decide

/-- C5, counterexample: on `storeC5` the edge's source entity is absent from
the store; the forward mapping holds key `x5` with related `y5`, while the
reverse mapping does not hold `x5` in the value list of `y5` — the claimed
transpose equivalence fails. -/
theorem C5_counterexample :
    mappingHasPair (get_related storeC5 "intrusion-set" "uses" "tool" false)
      "intrusion-set--x5" "tool--y5" = true ∧
    mappingHasPair (get_related storeC5 "intrusion-set" "uses" "tool" true)
      "tool--y5" "intrusion-set--x5" = false := by decide

/-- C5 (amended): for identifiers `x` and `y` that are both present in the
store as non-revoked entities of the source and target types respectively,
`x` appears as a key with `y` in its value list in the forward mapping iff
`y` appears as a key with `x` in its value list in the reverse mapping. -/
theorem C5_transpose (src : StixStore) (st rt tt x y : String)
    (hx : ∃ o ∈ src, o.id = x ∧ o.type = st ∧ o.revoked.getD false = false)
    (hy : ∃ o ∈ src, o.id = y ∧ o.type = tt ∧ o.revoked.getD false = false) :
    mappingHasPair (get_related src st rt tt false) x y = true ↔
      mappingHasPair (get_related src st rt tt true) y x = true := by
  rcases hx with ⟨ox, hox, hoxi, hoxt, hoxr⟩
  rcases hy with ⟨oy, hoy, hoyi, hoyt, hoyr⟩
  have hx2 : ∃ t ∈ queryTypeNonRevoked src st, t.id = x := by
    refine ⟨ox, ?_, hoxi⟩
    rw [queryTypeNonRevoked, List.mem_filter, Bool.and_eq_true, beq_iff_eq, beq_iff_eq]
    exact ⟨hox, hoxt, hoxr⟩
  have hy2 : ∃ t ∈ queryTypeNonRevoked src tt, t.id = y := by
    refine ⟨oy, ?_, hoyi⟩
    rw [queryTypeNonRevoked, List.mem_filter, Bool.and_eq_true, beq_iff_eq, beq_iff_eq]
    exact ⟨hoy, hoyt, hoyr⟩
  rw [mappingHasPair_get_related, mappingHasPair_get_related]
  constructor
  · rintro ⟨⟨r, hr, hm, ha, ho⟩, -⟩
    exact ⟨⟨r, hr, hm, ho, ha⟩, hx2⟩
  · rintro ⟨⟨r, hr, hm, ha, ho⟩, -⟩
    exact ⟨⟨r, hr, hm, ho, ha⟩, hy2⟩

/-- C5, witness: the amended transpose equivalence at `storeC5w`, where both
endpoints are live. -/
theorem C5_witness :
    mappingHasPair (get_related storeC5w "intrusion-set" "uses" "tool" false)
      "intrusion-set--x5" "tool--y5" = true ↔
    mappingHasPair (get_related storeC5w "intrusion-set" "uses" "tool" true)
      "tool--y5" "intrusion-set--x5" = true :=
  C5_transpose storeC5w "intrusion-set" "uses" "tool" "intrusion-set--x5" "tool--y5"
    (by decide) (by decide)

/-- C6: on the scenario store (group `g6` uses tool `w6`; campaign `c6` is
attributed to `g6` and uses malware `m6`), `get_software_used_by_groups`
maps the group to exactly the tool's entry followed by the malware's
entry — the direct entry precedes the bridged one. -/
theorem C6_scenario :
    get_software_used_by_groups storeC6 =
      [("intrusion-set--g6", [⟨objW6, edge61⟩, ⟨objM6, edge63⟩])] := by decide

/-- C7: `remove_revoked_deprecated` returns the order-preserving subsequence
of its input consisting of exactly the elements for which neither
`x_mitre_deprecated` nor `revoked` is present with value `true` (an absent
flag counts as `false`); being a pure function of the input list in this
embedding, it has no side effects and does not mutate its input. -/
theorem C7_filter_contract (stix_objects : List StixObject) :
    List.Sublist (remove_revoked_deprecated stix_objects) stix_objects ∧
      ∀ x : StixObject, x ∈ remove_revoked_deprecated stix_objects ↔
        x ∈ stix_objects ∧ x.x_mitre_deprecated ≠ some true ∧ x.revoked ≠ some true := by
  constructor
  · exact List.filter_sublist _
  · intro x
    rw [remove_revoked_deprecated, List.mem_filter, Bool.and_eq_true, beq_iff_eq,
      beq_iff_eq, getD_false_eq_false_iff, getD_false_eq_false_iff]

/-- C8: for a valid `object_type`, `get_object_by_name` returns the unique
matching entity when the query has exactly one result, and fails with the
empty-sequence index error when it has zero results; the same zero-result
failure holds for `get_group_by_alias`, `get_campaign_by_alias`,
`get_software_by_alias` and `get_object_by_attack_id`. -/
theorem C8_hard_not_found (src : StixStore) (oname object_type attack_id al : String)
    (htype : object_type ∈ stix_types) :
    (∀ x : StixObject, queryByTypeName src object_type oname = [x] →
        get_object_by_name src oname object_type = .ok x) ∧
    (queryByTypeName src object_type oname = [] →
        get_object_by_name src oname object_type = .error .indexError) ∧
    (queryGroupByAlias src al = [] → get_group_by_alias src al = .error .indexError) ∧
    (queryCampaignByAlias src al = [] →
        get_campaign_by_alias src al = .error .indexError) ∧
    (querySoftwareByAlias src al = [] →
        get_software_by_alias src al = .error .indexError) ∧
    (queryByAttackId src attack_id object_type = [] →
        get_object_by_attack_id src attack_id object_type = .error .indexError) := by
  have hc : stix_types.contains object_type = true := by
    exact List.elem_iff.mpr htype
  refine ⟨?_, ?_, ?_, ?_, ?_, ?_⟩
  · intro x h
    simp [get_object_by_name, hc, htype, h, StixObjectFactory]
  · intro h
    simp [get_object_by_name, hc, htype, h]
  · intro h
    simp [get_group_by_alias, h]
  · intro h
    simp [get_campaign_by_alias, h]
  · intro h
    simp [get_software_by_alias, h]
  · intro h
    simp [get_object_by_attack_id, hc, htype, h]

/-- C8, witness: the lookup contract applied to `storeC8` — a present name
returns the group, absent names and aliases produce the index error. -/
theorem C8_witness :
    get_object_by_name storeC8 "PhantomBear" "intrusion-set" = .ok objG8 ∧
    get_object_by_name storeC8 "NoSuchName" "intrusion-set" = .error .indexError ∧
    get_group_by_alias storeC8 "ZZ" = .error .indexError ∧
    get_campaign_by_alias storeC8 "PB8" = .error .indexError ∧
    get_software_by_alias storeC8 "PB8" = .error .indexError ∧
    get_object_by_attack_id storeC8 "G9999" "intrusion-set" = .error .indexError := by
  have hA := C8_hard_not_found storeC8 "PhantomBear" "intrusion-set" "G9999" "ZZ"
    (by decide)
  have hB := C8_hard_not_found storeC8 "NoSuchName" "intrusion-set" "G9999" "PB8"
    (by decide)
  exact ⟨hA.1 objG8 (by decide), hB.2.1 (by decide), hA.2.2.1 (by decide),
    hB.2.2.2.1 (by decide), hB.2.2.2.2.1 (by decide), hA.2.2.2.2.2 (by decide)⟩

/-- C9, counterexample: with every type tag outside the recognized
vocabulary, `get_related` on a store with valid content silently returns the
empty mapping instead of failing — no validation step exists on this path. -/
theorem C9_counterexample :
    get_related storeC9 "no-such-source-kind" "no-such-relationship-kind"
      "no-such-target-kind" false = [] := by decide

/-- C9 (amended): `get_related` performs no vocabulary validation; whenever
no store record is a relationship of the requested type passing the
type-containment test — in particular for any `relationship_type`,
`source_type` or `target_type` outside the recognized vocabulary — the call
silently returns the empty mapping rather than reporting an error. -/
theorem C9_no_validation (src : StixStore) (st rt tt : String) (rev : Bool)
    (h : ∀ o ∈ src, o.type = "relationship" → o.relationship_type = rt →
      relMatch st tt o = false) :
    get_related src st rt tt rev = [] := by
  have hall : ∀ r ∈ remove_revoked_deprecated (queryRelationships src rt),
      relMatch st tt r = false := by
    intro r hr
    rw [remove_revoked_deprecated, List.mem_filter] at hr
    have hq := hr.1
    rw [queryRelationships, List.mem_filter] at hq
    have hq2 := hq.2
    rw [Bool.and_eq_true, Bool.and_eq_true, beq_iff_eq, beq_iff_eq] at hq2
    exact h r hq.1 hq2.1.1 hq2.1.2
  have hb : buildRelated (remove_revoked_deprecated (queryRelationships src rt))
      st tt rev = [] := by
    rw [buildRelated]
    exact foldl_buildStep_no_match st tt rev _ [] hall
  simp only [get_related, hb, List.map_nil]

/-- C9, witness: the amended theorem applied to `storeC9` with an
unrecognized relationship type. -/
theorem C9_witness :
    get_related storeC9 "intrusion-set" "no-such-relationship-kind" "tool" false = [] :=
  C9_no_validation storeC9 "intrusion-set" "no-such-relationship-kind" "tool" false
    (by decide)

/-- C10: when the non-revoked revoking-object query for `stix_id` is empty —
a list, never `None` — `get_revoked_by` fails with the out-of-range index
error instead of returning `None` or an empty result, and it returns the
first matching revoking object exactly when at least one exists. -/
theorem C10_revoked_by_contract (src : StixStore) (stix_id : String) :
    (revokedByQuery src stix_id = [] →
        get_revoked_by src stix_id = .error .indexError) ∧
    ∀ (x : StixObject) (xs : List StixObject),
      revokedByQuery src stix_id = x :: xs → get_revoked_by src stix_id = .ok x := by
  constructor
  · intro h
    simp [get_revoked_by, h]
  · intro x xs h
    simp [get_revoked_by, h]

/-- C10, witness: on `storeC10` the revoked object's revoker is returned and
an identifier with no revoker produces the index error. -/
theorem C10_witness :
    get_revoked_by storeC10 "attack-pattern--old10" = .ok objNew10 ∧
    get_revoked_by storeC10 "attack-pattern--zz10" = .error .indexError :=
  ⟨(C10_revoked_by_contract storeC10 "attack-pattern--old10").2 objNew10 [] (by decide),
   (C10_revoked_by_contract storeC10 "attack-pattern--zz10").1 (by decide)⟩

end MitreAttackData
